import Mathlib

/-!
# Verification of the `WebGLDriver` class (src/main.js)

A shallow embedding of the `WebGLDriver` helper class of the
threejs-experiments repository.  JavaScript values that flow through the
configuration object are modelled by `JSVal` (with JS truthiness);
the driver instance is a `WebGLDriver` record; stateful methods are
state-passing functions `WebGLDriver → WebGLDriver × List Event`, where
`Event` records the observable calls (renders, scheduled frames,
console warnings, user callbacks ...) that the method performs.
Numbers are modelled by `Rat`; the claims exercised here never reach a
JavaScript `NaN`/`Infinity` path.  User-supplied `setup`/`update`
callbacks are modelled as observations (events carrying their
arguments): the claims under study concern when and how often they are
invoked, not their effect on the scene.
-/

/-- A JavaScript value as it appears in the driver's configuration:
`undefined`, `null`, booleans, (finite) numbers, strings, and opaque
object references tagged by a string. -/
inductive JSVal where
  | undefined
  | null
  | bool (b : Bool)
  | num (q : Rat)
  | str (s : String)
  | obj (tag : String)
deriving DecidableEq, Repr

/-- JS truthiness: `undefined`, `null`, `false`, `0` and `""` are falsy,
every other modelled value (including any object) is truthy. -/
def JSVal.truthy : JSVal → Bool
  | .undefined => false
  | .null => false
  | .bool b => b
  | .num q => q != 0
  | .str s => s != ""
  | .obj _ => true

/-- The JS `a || b` operator on modelled values. -/
def jsOr (a b : JSVal) : JSVal := if a.truthy then a else b

/-- Numeric reading of a `JSVal`; the claims only apply arithmetic to
values that are numbers, so the other constructors map to 0. -/
def JSVal.asNum : JSVal → Rat
  | .num q => q
  | _ => 0

/-- The JS `q || d` idiom on an optional numeric field: an absent field
reads as `undefined` (falsy) and a present `0` is falsy too, so both
fall back to the default `d`. -/
def jsOrNum (o : Option Rat) (d : Rat) : Rat :=
  match o with
  | some q => if q = 0 then d else q
  | none => d

/-- `document.body`, the default container. -/
def documentBody : JSVal := .obj "document.body"

/-- The JS `String.prototype.toLowerCase()` on the (ASCII) light type
names this program compares against. -/
def jsToLower (s : String) : String := ⟨s.data.map Char.toLower⟩

/-- The browser environment visible to the driver at one call:
window dimensions, device pixel ratio, the current high-resolution
time (milliseconds, read by `THREE.Clock`), and whether the optional
`THREE.OrbitControls` / `Stats` globals are defined. -/
structure Env where
  innerWidth : Rat
  innerHeight : Rat
  devicePixelRatio : Rat
  now : Rat
  orbitControlsDefined : Bool
  statsDefined : Bool
deriving DecidableEq, Repr

/-- The options object passed to `new WebGLDriver(options)`.  Each
configuration key is `none` when the caller did not supply the key and
`some v` when the caller supplied it with value `v` (which may be
`JSVal.undefined`: JS distinguishes an absent key from a key set to
`undefined`, and so does the `...options` spread).  `setup`/`update`
record whether a (truthy, i.e. function) callback was supplied. -/
structure Options where
  container : Option JSVal := none
  width : Option JSVal := none
  height : Option JSVal := none
  backgroundColor : Option JSVal := none
  antialias : Option JSVal := none
  alpha : Option JSVal := none
  shadows : Option JSVal := none
  controls : Option JSVal := none
  stats : Option JSVal := none
  debug : Option JSVal := none
  autoStart : Option JSVal := none
  setup : Bool := false
  update : Bool := false
deriving DecidableEq, Repr

/-- Reading an options key: an absent key reads as `undefined`. -/
def optRead (o : Option JSVal) : JSVal := o.getD .undefined

/-- The driver's `this.config` object (the keys the class reads). -/
structure Config where
  container : JSVal
  width : JSVal
  height : JSVal
  backgroundColor : JSVal
  antialias : JSVal
  alpha : JSVal
  shadows : JSVal
  controls : JSVal
  stats : JSVal
  debug : JSVal
  autoStart : JSVal
deriving DecidableEq, Repr

/-- The `...options` spread at the end of the config literal: a key
present in `options` (even with value `undefined`) overrides the
normalized default computed before it. -/
def spreadKey (o : Option JSVal) (dflt : JSVal) : JSVal := o.getD dflt

/-- `this.config` as built by the constructor (src/main.js lines 4-17):
the object literal computes normalized defaults for each key, then the
trailing `...options` spread overwrites every key the caller supplied
with the caller's raw value. -/
def mkConfig (o : Options) (env : Env) : Config :=
  let base : Config := {
    container := jsOr (optRead o.container) documentBody
    width := jsOr (optRead o.width) (.num env.innerWidth)
    height := jsOr (optRead o.height) (.num env.innerHeight)
    backgroundColor := jsOr (optRead o.backgroundColor) (.num 0)
    antialias := .bool (optRead o.antialias != .bool false)
    alpha := jsOr (optRead o.alpha) (.bool false)
    shadows := .bool (optRead o.shadows != .bool false)
    controls := .bool (optRead o.controls != .bool false)
    stats := jsOr (optRead o.stats) (.bool false)
    debug := jsOr (optRead o.debug) (.bool false)
    autoStart := .bool (optRead o.autoStart != .bool false) }
  { container := spreadKey o.container base.container
    width := spreadKey o.width base.width
    height := spreadKey o.height base.height
    backgroundColor := spreadKey o.backgroundColor base.backgroundColor
    antialias := spreadKey o.antialias base.antialias
    alpha := spreadKey o.alpha base.alpha
    shadows := spreadKey o.shadows base.shadows
    controls := spreadKey o.controls base.controls
    stats := spreadKey o.stats base.stats
    debug := spreadKey o.debug base.debug
    autoStart := spreadKey o.autoStart base.autoStart }

/-- A 3-component vector (`position`, `rotation`, `scale`). -/
structure Vec3 where
  x : Rat
  y : Rat
  z : Rat
deriving DecidableEq, Repr

/-- The parameters of each light the `createLight` factory can build,
with the defaults of src/main.js lines 380-394 already applied. -/
inductive LightSpec where
  | ambient (color intensity : Rat)
  | directional (color intensity : Rat)
  | point (color intensity distance decay : Rat)
  | spot (color intensity distance angle penumbra decay : Rat)
  | hemisphere (skyColor groundColor intensity : Rat)
deriving DecidableEq, Repr

/-- What kind of `THREE.Object3D` a scene node is: the scene root
itself, a mesh (with its geometry and material ids), or a light. -/
inductive ObjKind where
  | sceneRoot
  | mesh (geomId matId : Nat)
  | light (spec : LightSpec)
deriving DecidableEq, Repr

/-- A `THREE.Object3D` as used by this program: identity, name,
kind, transform, and the shadow settings the class writes.  Fresh
objects get `name := ""`, `position/rotation := 0`, `scale := 1`,
`castShadow/receiveShadow := false` (the THREE defaults). -/
structure Object3D where
  id : Nat
  name : String := ""
  kind : ObjKind
  position : Vec3 := ⟨0, 0, 0⟩
  rotation : Vec3 := ⟨0, 0, 0⟩
  scale : Vec3 := ⟨1, 1, 1⟩
  castShadow : Bool := false
  receiveShadow : Bool := false
  shadowMapW : Rat := 512
  shadowMapH : Rat := 512
  shadowCamNear : Rat := 1/2
  shadowCamFar : Rat := 500
deriving DecidableEq, Repr

/-- The `THREE.Scene`: itself an `Object3D` with name `""`, holding a
background and a flat list of children (no object in this program ever
receives children of its own). -/
structure Scene where
  id : Nat
  name : String := ""
  background : Option JSVal := none
  children : List Object3D := []
deriving DecidableEq, Repr

/-- The scene viewed as the root `Object3D` of the graph (as
`THREE.Object3D.getObjectByName` views it). -/
def Scene.rootObject (s : Scene) : Object3D :=
  { id := s.id, name := s.name, kind := .sceneRoot }

/-- `THREE.Object3D.getObjectByName` on the scene: checks the object
itself first, then its children in insertion order; `none` models the
`undefined` result. -/
def Scene.getObjectByName (s : Scene) (n : String) : Option Object3D :=
  if s.name = n then some s.rootObject
  else s.children.find? (fun c => c.name = n)

/-- The `THREE.PerspectiveCamera` fields this program touches. -/
structure Camera where
  fov : Rat
  aspect : Rat
  near : Rat
  far : Rat
  position : Vec3
deriving DecidableEq, Repr

/-- The shadow map type of the renderer (`THREE.PCFShadowMap` is the
library default, the class switches to `THREE.PCFSoftShadowMap`). -/
inductive ShadowMapType where
  | pcf
  | pcfSoft
deriving DecidableEq, Repr

/-- The `THREE.WebGLRenderer` state this program touches, plus where
its canvas was appended. -/
structure Renderer where
  antialias : Bool
  alpha : Bool
  width : Rat
  height : Rat
  pixelRatio : Rat
  shadowMapEnabled : Bool
  shadowMapType : ShadowMapType
  canvasAppendedTo : Option JSVal
deriving DecidableEq, Repr

/-- `THREE.Clock`: constructed with `autoStart = true`; not running
until the first `getDelta`. -/
structure Clock where
  running : Bool := false
  oldTime : Rat := 0
  elapsedTime : Rat := 0
deriving DecidableEq, Repr

/-- `Clock.getDelta` at high-resolution time `now` (ms): on the first
call it starts the clock and returns 0; afterwards it returns the
elapsed seconds since the previous call and accumulates them. -/
def Clock.getDelta (c : Clock) (now : Rat) : Rat × Clock :=
  if c.running then
    let diff := (now - c.oldTime) / 1000
    (diff, { c with oldTime := now, elapsedTime := c.elapsedTime + diff })
  else
    (0, { running := true, oldTime := now, elapsedTime := 0 })

/-- `Clock.getElapsedTime`: calls `getDelta` and returns the
accumulated elapsed seconds. -/
def Clock.getElapsedTime (c : Clock) (now : Rat) : Rat × Clock :=
  let r := c.getDelta now
  (r.2.elapsedTime, r.2)

/-- The observable calls a driver method performs. -/
inductive Event where
  | sceneCreated
  | cameraCreated
  | rendererCreated
  | canvasAppended
  | lightsCreated
  | controlsCreated
  | statsCreated
  | listenersSetup
  | setupCallbackCalled
  | setupMethodCalled
  | updateCallbackCalled (deltaTime elapsedTime : Rat)
  | updateMethodCalled (deltaTime elapsedTime : Rat)
  | render
  | frameScheduled (id : Nat)
  | frameCancelled (id : Nat)
  | statsBegin
  | statsEnd
  | controlsUpdate
  | projectionMatrixUpdated
  | consoleWarn (msg : String)
  | consoleLog
deriving DecidableEq, Repr

/-- The `WebGLDriver` instance state. `nextObjId` feeds fresh
`Object3D` identities and `nextRafId` models the browser's strictly
positive `requestAnimationFrame` handle counter. -/
structure WebGLDriver where
  config : Config
  hasSetupCallback : Bool
  hasUpdateCallback : Bool
  scene : Option Scene := none
  camera : Option Camera := none
  renderer : Option Renderer := none
  controls : Option Unit := none
  stats : Option Unit := none
  clock : Clock := {}
  animationId : Option Nat := none
  isAnimating : Bool := false
  objects : List (String × Object3D) := []
  resizeListenerAttached : Bool := false
  nextObjId : Nat := 1
  nextRafId : Nat := 1
deriving DecidableEq, Repr

namespace WebGLDriver

/-- Emit a `console.log` event when `config.debug` is truthy
(the `if (this.config.debug) console.log(...)` pattern). -/
def debugLog (d : WebGLDriver) : List Event :=
  if d.config.debug.truthy then [.consoleLog] else []

/-- `createScene` (lines 74-83): makes a fresh `THREE.Scene` and sets
its background from `config.backgroundColor` unless that is `null`. -/
def createScene (d : WebGLDriver) : WebGLDriver × List Event :=
  let s : Scene := { id := d.nextObjId }
  let s := if d.config.backgroundColor ≠ .null
    then { s with background := some d.config.backgroundColor } else s
  ({ d with scene := some s, nextObjId := d.nextObjId + 1 },
   [.sceneCreated] ++ d.debugLog)

/-- `createCamera` (lines 85-93): a `PerspectiveCamera(75, aspect,
0.1, 1000)` at position `(0, 0, 5)`. -/
def createCamera (d : WebGLDriver) : WebGLDriver × List Event :=
  let aspect := d.config.width.asNum / d.config.height.asNum
  let c : Camera :=
    { fov := 75, aspect := aspect, near := 1/10, far := 1000
      position := ⟨0, 0, 5⟩ }
  ({ d with camera := some c }, [.cameraCreated] ++ d.debugLog)

/-- `createRenderer` (lines 95-114): builds the `WebGLRenderer`, sizes
it from the config, caps the pixel ratio at 2, enables soft shadow
maps when `config.shadows` is truthy, and appends the canvas to the
configured container. -/
def createRenderer (env : Env) (d : WebGLDriver) : WebGLDriver × List Event :=
  let r : Renderer :=
    { antialias := d.config.antialias.truthy
      alpha := d.config.alpha.truthy
      width := d.config.width.asNum
      height := d.config.height.asNum
      pixelRatio := min env.devicePixelRatio 2
      shadowMapEnabled := d.config.shadows.truthy
      shadowMapType := if d.config.shadows.truthy then .pcfSoft else .pcf
      canvasAppendedTo := some d.config.container }
  ({ d with renderer := some r },
   [.rendererCreated, .canvasAppended] ++ d.debugLog)

/-- `createLights` (lines 116-138): one `AmbientLight(0x404040, 0.4)`
and one `DirectionalLight(0xffffff, 0.8)` at `(10, 10, 5)`, the latter
casting 2048x2048 shadows with near 0.5 / far 50 when `config.shadows`
is truthy; both added to the scene. -/
def createLights (d : WebGLDriver) : WebGLDriver × List Event :=
  match d.scene with
  | none => (d, [])  -- unreachable: init creates the scene first
  | some s =>
    let amb : Object3D :=
      { id := d.nextObjId, kind := .light (.ambient 0x404040 (2/5)) }
    let dir : Object3D :=
      { id := d.nextObjId + 1, kind := .light (.directional 0xffffff (4/5))
        position := ⟨10, 10, 5⟩ }
    let dir := if d.config.shadows.truthy then
        { dir with castShadow := true, shadowMapW := 2048, shadowMapH := 2048
                   shadowCamNear := 1/2, shadowCamFar := 50 }
      else dir
    ({ d with scene := some { s with children := s.children ++ [amb, dir] }
              nextObjId := d.nextObjId + 2 },
     [.lightsCreated] ++ d.debugLog)

/-- `createControls` (lines 140-152): when the `THREE.OrbitControls`
global is defined, builds the controls; otherwise warns, and only in
debug mode. -/
def createControls (env : Env) (d : WebGLDriver) : WebGLDriver × List Event :=
  if env.orbitControlsDefined then
    ({ d with controls := some () }, [.controlsCreated] ++ d.debugLog)
  else if d.config.debug.truthy then
    (d, [.consoleWarn "OrbitControls not available. Make sure to include the OrbitControls script."])
  else
    (d, [])

/-- `createStats` (lines 154-166): when the `Stats` global is defined,
builds the FPS panel; otherwise warns, and only in debug mode. -/
def createStats (env : Env) (d : WebGLDriver) : WebGLDriver × List Event :=
  if env.statsDefined then
    ({ d with stats := some () }, [.statsCreated] ++ d.debugLog)
  else if d.config.debug.truthy then
    (d, [.consoleWarn "Stats.js not available. Make sure to include the Stats.js library."])
  else
    (d, [])

/-- `setupEventListeners` (lines 168-170): registers the window
resize listener. -/
def setupEventListeners (d : WebGLDriver) : WebGLDriver × List Event :=
  ({ d with resizeListenerAttached := true }, [.listenersSetup])

/-- The setup step of `init` (lines 62-66): the user callback when one
was supplied, otherwise the overridable `setup` method (lines 309-314,
which only logs in debug mode). -/
def runSetup (d : WebGLDriver) : WebGLDriver × List Event :=
  if d.hasSetupCallback then (d, [.setupCallbackCalled])
  else (d, [.setupMethodCalled] ++ d.debugLog)

/-- `animate` (lines 203-235): returns immediately unless
`isAnimating`; otherwise schedules the next frame, reads the clock,
runs stats/controls bookkeeping, invokes the update callback (or the
overridable `update` method) with `deltaTime` and `elapsedTime`, and
renders the scene once. -/
def animate (env : Env) (d : WebGLDriver) : WebGLDriver × List Event :=
  if !d.isAnimating then (d, [])
  else
    let rafId := d.nextRafId
    let d := { d with animationId := some rafId, nextRafId := d.nextRafId + 1 }
    let r1 := d.clock.getDelta env.now
    let deltaTime := r1.1
    let r2 := r1.2.getElapsedTime env.now
    let elapsedTime := r2.1
    let d := { d with clock := r2.2 }
    let tStats1 : List Event := if d.stats.isSome then [.statsBegin] else []
    let tCtrl : List Event := if d.controls.isSome then [.controlsUpdate] else []
    let tUpd : List Event :=
      if d.hasUpdateCallback then [.updateCallbackCalled deltaTime elapsedTime]
      else [.updateMethodCalled deltaTime elapsedTime]
    let tStats2 : List Event := if d.stats.isSome then [.statsEnd] else []
    (d, [.frameScheduled rafId] ++ tStats1 ++ tCtrl ++ tUpd ++ [.render] ++ tStats2)

/-- `startAnimation` (lines 187-192): does nothing when already
animating, otherwise sets `isAnimating` and calls `animate`. -/
def startAnimation (env : Env) (d : WebGLDriver) : WebGLDriver × List Event :=
  if d.isAnimating then (d, [])
  else animate env { d with isAnimating := true }

/-- `stopAnimation` (lines 194-200): guarded by the truthiness of
`animationId` (browser frame handles are never 0); cancels the pending
frame and clears the animation state. -/
def stopAnimation (d : WebGLDriver) : WebGLDriver × List Event :=
  match d.animationId with
  | some id =>
    if id ≠ 0 then
      ({ d with animationId := none, isAnimating := false }, [.frameCancelled id])
    else (d, [])
  | none => (d, [])

/-- `onWindowResize` (lines 172-185): refreshes `config.width/height`
from the window, recomputes the camera aspect, updates the projection
matrix, resizes the renderer and re-applies the capped pixel ratio. -/
def onWindowResize (env : Env) (d : WebGLDriver) : WebGLDriver × List Event :=
  match d.camera, d.renderer with
  | some c, some r =>
    let cfg := { d.config with
      width := .num env.innerWidth, height := .num env.innerHeight }
    let c := { c with aspect := env.innerWidth / env.innerHeight }
    let r := { r with width := env.innerWidth, height := env.innerHeight
                      pixelRatio := min env.devicePixelRatio 2 }
    ({ d with config := cfg, camera := some c, renderer := some r },
     [.projectionMatrixUpdated] ++
       (if cfg.debug.truthy then [.consoleLog] else []))
  | _, _ => (d, [])  -- unreachable: init creates camera and renderer

/-- The `if (this.config.controls) { this.createControls(); }` step of
`init` (lines 51-53). -/
def controlsStep (env : Env) (d : WebGLDriver) : WebGLDriver × List Event :=
  if d.config.controls.truthy then createControls env d else (d, [])

/-- The `if (this.config.stats) { this.createStats(); }` step of
`init` (lines 55-57). -/
def statsStep (env : Env) (d : WebGLDriver) : WebGLDriver × List Event :=
  if d.config.stats.truthy then createStats env d else (d, [])

/-- The `if (this.config.autoStart) { this.startAnimation(); }` step
of `init` (lines 69-71). -/
def autoStartStep (env : Env) (d : WebGLDriver) : WebGLDriver × List Event :=
  if d.config.autoStart.truthy then startAnimation env d else (d, [])

/-- `init` (lines 45-72): the fixed construction pipeline, the
optional controls/stats, the listeners, the user setup hook, and the
auto-started animation loop. -/
def init (env : Env) (d0 : WebGLDriver) : WebGLDriver × List Event :=
  let r1 := createScene d0
  let r2 := createCamera r1.1
  let r3 := createRenderer env r2.1
  let r4 := createLights r3.1
  let r5 := controlsStep env r4.1
  let r6 := statsStep env r5.1
  let r7 := setupEventListeners r6.1
  let r8 := runSetup r7.1
  let r9 := autoStartStep env r8.1
  (r9.1, r1.2 ++ r2.2 ++ r3.2 ++ r4.2 ++ r5.2 ++ r6.2 ++ r7.2 ++ r8.2 ++ r9.2)

/-- `new WebGLDriver(options)` (lines 2-40): builds the config,
stores the callbacks, zeroes the component slots, and runs `init`. -/
def new (o : Options) (env : Env) : WebGLDriver × List Event :=
  let d0 : WebGLDriver :=
    { config := mkConfig o env
      hasSetupCallback := o.setup
      hasUpdateCallback := o.update }
  init env d0

end WebGLDriver

/-- The value of a `{x, y, z}` option object: each component present
or absent. -/
structure VecOpt where
  x : Option Rat := none
  y : Option Rat := none
  z : Option Rat := none
deriving DecidableEq, Repr

/-- The `options.scale` value accepted by `createMesh`: a bare number
or a component object. -/
inductive ScaleOpt where
  | num (q : Rat)
  | vec (v : VecOpt)
deriving DecidableEq, Repr

/-- JS truthiness of the scale option: an absent scale and the number
0 are falsy; every object is truthy. -/
def ScaleOpt.truthy : Option ScaleOpt → Bool
  | some (.num q) => q != 0
  | some (.vec _) => true
  | none => false

/-- The options accepted by `createMesh` (lines 334-368). A component
object is always truthy, so `position`/`rotation` are applied exactly
when present; `castShadow`/`receiveShadow` use an `!== undefined`
check, so `none` models an absent-or-undefined key. -/
structure MeshOptions where
  position : Option VecOpt := none
  rotation : Option VecOpt := none
  scale : Option ScaleOpt := none
  castShadow : Option Bool := none
  receiveShadow : Option Bool := none
  name : Option String := none
deriving DecidableEq, Repr

/-- The options accepted by `createLight` (lines 376-419). -/
structure LightOptions where
  color : Option Rat := none
  intensity : Option Rat := none
  distance : Option Rat := none
  decay : Option Rat := none
  angle : Option Rat := none
  penumbra : Option Rat := none
  skyColor : Option Rat := none
  groundColor : Option Rat := none
  position : Option VecOpt := none
  castShadow : Option Bool := none
  shadowMapSize : Option Rat := none
  name : Option String := none
deriving DecidableEq, Repr

/-- The exact double value of JavaScript's `Math.PI`
(884279719003555 / 2^48). -/
def mathPI : Rat := 884279719003555 / 281474976710656

/-- JS truthiness of `options.name`: present and nonempty. -/
def nameTruthy : Option String → Bool
  | some n => n != ""
  | none => false

/-- Whether a light kind has a `shadow` property in THREE
(`AmbientLight` and `HemisphereLight` do not). -/
def LightSpec.hasShadow : LightSpec → Bool
  | .ambient _ _ => false
  | .hemisphere _ _ _ => false
  | _ => true

namespace WebGLDriver

/-- `addToScene` (lines 237-240): `this.scene.add(object)`. -/
def addToScene (ob : Object3D) (d : WebGLDriver) : WebGLDriver :=
  match d.scene with
  | some s => { d with scene := some { s with children := s.children ++ [ob] } }
  | none => d  -- unreachable: the factories run after init

/-- Registration step shared by `createMesh` and `createLight`:
`if (options.name) { obj.name = options.name; this.objects[name] = obj }`. -/
def registerName (nm : Option String) (ob : Object3D) (d : WebGLDriver) :
    Object3D × WebGLDriver :=
  match nm with
  | some n =>
    if n ≠ "" then
      let ob := { ob with name := n }
      (ob, { d with objects := (n, ob) :: d.objects })
    else (ob, d)
  | none => (ob, d)

/-- `createMesh` (lines 334-368): builds a `THREE.Mesh` from the given
geometry/material ids, applies each option under its JS truthiness
guard (`position.x || 0`, `scale.x || 1`, a falsy scale ignored),
optionally names and registers it, adds it to the scene and returns
it. -/
def createMesh (geomId matId : Nat) (opts : MeshOptions) (d : WebGLDriver) :
    WebGLDriver × Object3D :=
  let m : Object3D := { id := d.nextObjId, kind := .mesh geomId matId }
  let d := { d with nextObjId := d.nextObjId + 1 }
  let m := match opts.position with
    | some v => { m with position :=
        ⟨jsOrNum v.x 0, jsOrNum v.y 0, jsOrNum v.z 0⟩ }
    | none => m
  let m := match opts.rotation with
    | some v => { m with rotation :=
        ⟨jsOrNum v.x 0, jsOrNum v.y 0, jsOrNum v.z 0⟩ }
    | none => m
  let m := if ScaleOpt.truthy opts.scale then
      match opts.scale with
      | some (.num q) => { m with scale := ⟨q, q, q⟩ }
      | some (.vec v) => { m with scale :=
          ⟨jsOrNum v.x 1, jsOrNum v.y 1, jsOrNum v.z 1⟩ }
      | none => m
    else m
  let m := match opts.castShadow with
    | some b => { m with castShadow := b }
    | none => m
  let m := match opts.receiveShadow with
    | some b => { m with receiveShadow := b }
    | none => m
  let r := registerName opts.name m d
  let m := r.1
  let d := addToScene m r.2
  (d, m)

/-- The `switch (type.toLowerCase())` of `createLight` (lines
379-398): the light built for each known type with the `||` defaults
of the source, `none` for an unknown type. -/
def lightSpecFor (ty : String) (o : LightOptions) : Option LightSpec :=
  if jsToLower ty = "ambient" then
    some (.ambient (jsOrNum o.color 0xffffff) (jsOrNum o.intensity 1))
  else if jsToLower ty = "directional" then
    some (.directional (jsOrNum o.color 0xffffff) (jsOrNum o.intensity 1))
  else if jsToLower ty = "point" then
    some (.point (jsOrNum o.color 0xffffff) (jsOrNum o.intensity 1)
      (jsOrNum o.distance 0) (jsOrNum o.decay 1))
  else if jsToLower ty = "spot" then
    some (.spot (jsOrNum o.color 0xffffff) (jsOrNum o.intensity 1)
      (jsOrNum o.distance 0) (jsOrNum o.angle (mathPI / 3))
      (jsOrNum o.penumbra 0) (jsOrNum o.decay 1))
  else if jsToLower ty = "hemisphere" then
    some (.hemisphere (jsOrNum o.skyColor 0xffffff)
      (jsOrNum o.groundColor 0x444444) (jsOrNum o.intensity 1))
  else none

/-- `createLight` (lines 376-419): builds the light for the requested
type (warning and returning `null` on an unknown type), positions it,
configures shadows when both `options.castShadow` and `config.shadows`
are truthy, optionally names and registers it, and adds it to the
scene. -/
def createLight (ty : String) (opts : LightOptions) (d : WebGLDriver) :
    WebGLDriver × Option Object3D × List Event :=
  match lightSpecFor ty opts with
  | none => (d, none, [.consoleWarn ("Unknown light type: " ++ ty)])
  | some spec =>
    let l : Object3D := { id := d.nextObjId, kind := .light spec }
    let d := { d with nextObjId := d.nextObjId + 1 }
    let l := match opts.position with
      | some v => { l with position :=
          ⟨jsOrNum v.x 0, jsOrNum v.y 0, jsOrNum v.z 0⟩ }
      | none => l
    let l := if opts.castShadow.getD false && d.config.shadows.truthy then
        let l := { l with castShadow := true }
        if spec.hasShadow then
          { l with shadowMapW := jsOrNum opts.shadowMapSize 2048
                   shadowMapH := jsOrNum opts.shadowMapSize 2048 }
        else l
      else l
    let r := registerName opts.name l d
    let l := r.1
    let d := addToScene l r.2
    (d, some l, [])

/-- `getObject` (lines 426-428):
`this.objects[name] || this.scene.getObjectByName(name) || null`. -/
def getObject (n : String) (d : WebGLDriver) : Option Object3D :=
  match d.objects.lookup n with
  | some ob => some ob
  | none =>
    match d.scene with
    | some s => s.getObjectByName n
    | none => none  -- unreachable: init creates the scene

end WebGLDriver

/-! ## Derived notions and concrete fixtures used by the statements -/

/-- Is an event a call to the user update callback or to the
overridable `update` method? -/
def Event.isUpdateCall : Event → Bool
  | .updateCallbackCalled _ _ => true
  | .updateMethodCalled _ _ => true
  | _ => false

/-- Is an event the `renderer.render(scene, camera)` call? -/
def Event.isRender : Event → Bool
  | .render => true
  | _ => false

/-- Is an event a `requestAnimationFrame` scheduling? -/
def Event.isFrameScheduled : Event → Bool
  | .frameScheduled _ => true
  | _ => false

/-- Is an event a call to the user setup callback or to the
overridable `setup` method? -/
def Event.isSetupCall : Event → Bool
  | .setupCallbackCalled => true
  | .setupMethodCalled => true
  | _ => false

/-- Is an event a `console.warn`? -/
def Event.isWarn : Event → Bool
  | .consoleWarn _ => true
  | _ => false

/-- Is a scene node a `THREE.AmbientLight`? -/
def Object3D.isAmbientLight (ob : Object3D) : Bool :=
  match ob.kind with
  | .light (.ambient _ _) => true
  | _ => false

/-- Is a scene node a `THREE.DirectionalLight`? -/
def Object3D.isDirectionalLight (ob : Object3D) : Bool :=
  match ob.kind with
  | .light (.directional _ _) => true
  | _ => false

/-- The `deltaTime` an `animate` iteration passes to the update hook:
the result of `this.clock.getDelta()`. -/
def animDelta (env : Env) (d : WebGLDriver) : Rat :=
  (d.clock.getDelta env.now).1

/-- The `elapsedTime` an `animate` iteration passes to the update
hook: the result of `this.clock.getElapsedTime()` right after the
`getDelta` call. -/
def animElapsed (env : Env) (d : WebGLDriver) : Rat :=
  (((d.clock.getDelta env.now).2).getElapsedTime env.now).1

/-- A browser environment for concrete runs: an 800x600 window with
pixel ratio 1 and neither optional global loaded. -/
def envA : Env :=
  { innerWidth := 800, innerHeight := 600, devicePixelRatio := 1
    now := 1000, orbitControlsDefined := false, statsDefined := false }

/-- A later environment, as seen by a resize handler after the window
moved to a 1024x768, pixel-ratio-3 display. -/
def envB : Env :=
  { innerWidth := 1024, innerHeight := 768, devicePixelRatio := 3
    now := 2000, orbitControlsDefined := false, statsDefined := false }

/-- An environment where both `THREE.OrbitControls` and `Stats` are
loaded. -/
def envC : Env :=
  { innerWidth := 800, innerHeight := 600, devicePixelRatio := 1
    now := 1000, orbitControlsDefined := true, statsDefined := true }

/-- A driver constructed with default options in `envA`. -/
def dA : WebGLDriver := (WebGLDriver.new {} envA).1

/-- A driver constructed with `autoStart: false` (so no frame is
pending and `animationId` is `null`). -/
def dIdle : WebGLDriver :=
  (WebGLDriver.new { autoStart := some (.bool false) } envA).1

/-- A driver constructed in `envC` with `stats: true` and both user
callbacks supplied. -/
def dC : WebGLDriver :=
  (WebGLDriver.new { stats := some (.bool true), setup := true, update := true } envC).1

/-- The ambient light `createLights` adds
(`AmbientLight(0x404040, 0.4)`), with object identity `n`. -/
def ambLightAt (n : Nat) : Object3D := { id := n, kind := .light (.ambient 0x404040 (2/5)) }

/-- The directional light `createLights` adds
(`DirectionalLight(0xffffff, 0.8)` at `(10, 10, 5)`), with object
identity `n` and shadow settings when `config.shadows` is truthy. -/
def dirLightAt (n : Nat) (shadows : Bool) : Object3D :=
  let dir : Object3D :=
    { id := n, kind := .light (.directional 0xffffff (4/5)), position := ⟨10, 10, 5⟩ }
  if shadows then
    { dir with castShadow := true, shadowMapW := 2048, shadowMapH := 2048
               shadowCamNear := 1/2, shadowCamFar := 50 }
  else dir

/-- The camera `createCamera` builds from a config. -/
def cameraOf (cfg : Config) : Camera :=
  { fov := 75, aspect := cfg.width.asNum / cfg.height.asNum
    near := 1/10, far := 1000, position := ⟨0, 0, 5⟩ }

/-- The renderer `createRenderer` builds from a config and
environment. -/
def rendererOf (cfg : Config) (env : Env) : Renderer :=
  { antialias := cfg.antialias.truthy, alpha := cfg.alpha.truthy
    width := cfg.width.asNum, height := cfg.height.asNum
    pixelRatio := min env.devicePixelRatio 2
    shadowMapEnabled := cfg.shadows.truthy
    shadowMapType := if cfg.shadows.truthy then .pcfSoft else .pcf
    canvasAppendedTo := some cfg.container }

/-- Closed form of the driver state right after
`new WebGLDriver(options)` returns (proved equal to the run of the
constructor in `new_fst`). -/
def constructedState (o : Options) (env : Env) : WebGLDriver :=
  let cfg := mkConfig o env
  let s : Scene :=
    { id := 1
      background := if cfg.backgroundColor ≠ .null then some cfg.backgroundColor else none
      children := [ambLightAt 2, dirLightAt 3 cfg.shadows.truthy] }
  let c : Camera := cameraOf cfg
  let r : Renderer := rendererOf cfg env
  { config := cfg
    hasSetupCallback := o.setup
    hasUpdateCallback := o.update
    scene := some s
    camera := some c
    renderer := some r
    controls := if cfg.controls.truthy && env.orbitControlsDefined then some () else none
    stats := if cfg.stats.truthy && env.statsDefined then some () else none
    clock := if cfg.autoStart.truthy then { running := true, oldTime := env.now, elapsedTime := 0 } else {}
    animationId := if cfg.autoStart.truthy then some 1 else none
    isAnimating := cfg.autoStart.truthy
    objects := []
    resizeListenerAttached := true
    nextObjId := 4
    nextRafId := if cfg.autoStart.truthy then 2 else 1 }

/-- Closed form of the event trace `new WebGLDriver(options)` emits
(proved equal to the run of the constructor in `new_snd`). -/
def constructedTrace (o : Options) (env : Env) : List Event :=
  let cfg := mkConfig o env
  let dbg : List Event := if cfg.debug.truthy then [.consoleLog] else []
  [Event.sceneCreated] ++ dbg ++ [Event.cameraCreated] ++ dbg
    ++ [Event.rendererCreated, Event.canvasAppended] ++ dbg
    ++ [Event.lightsCreated] ++ dbg
    ++ (if cfg.controls.truthy then
          (if env.orbitControlsDefined then [Event.controlsCreated] ++ dbg
           else if cfg.debug.truthy then
             [Event.consoleWarn "OrbitControls not available. Make sure to include the OrbitControls script."]
           else [])
        else [])
    ++ (if cfg.stats.truthy then
          (if env.statsDefined then [Event.statsCreated] ++ dbg
           else if cfg.debug.truthy then
             [Event.consoleWarn "Stats.js not available. Make sure to include the Stats.js library."]
           else [])
        else [])
    ++ [Event.listenersSetup]
    ++ (if o.setup then [Event.setupCallbackCalled] else [Event.setupMethodCalled] ++ dbg)
    ++ (if cfg.autoStart.truthy then
          [Event.frameScheduled 1]
          ++ (if cfg.stats.truthy && env.statsDefined then [Event.statsBegin] else [])
          ++ (if cfg.controls.truthy && env.orbitControlsDefined then [Event.controlsUpdate] else [])
          ++ [if o.update then Event.updateCallbackCalled 0 0 else Event.updateMethodCalled 0 0]
          ++ [Event.render]
          ++ (if cfg.stats.truthy && env.statsDefined then [Event.statsEnd] else [])
        else [])

/-! ## Helper lemmas: closed forms of each method -/

namespace WebGLDriver

lemma createScene_fst (d : WebGLDriver) :
    (createScene d).1 =
      { d with
        scene := some { id := d.nextObjId, background :=
          if d.config.backgroundColor ≠ .null then some d.config.backgroundColor else none }
        nextObjId := d.nextObjId + 1 } := by
  unfold createScene
  split_ifs <;> rfl

lemma createScene_snd (d : WebGLDriver) :
    (createScene d).2 = [.sceneCreated] ++ d.debugLog := rfl

lemma createCamera_fst (d : WebGLDriver) :
    (createCamera d).1 = { d with camera := some (cameraOf d.config) } := rfl

lemma createCamera_snd (d : WebGLDriver) :
    (createCamera d).2 = [.cameraCreated] ++ d.debugLog := rfl

lemma createRenderer_fst (env : Env) (d : WebGLDriver) :
    (createRenderer env d).1 = { d with renderer := some (rendererOf d.config env) } := rfl

lemma createRenderer_snd (env : Env) (d : WebGLDriver) :
    (createRenderer env d).2 = [.rendererCreated, .canvasAppended] ++ d.debugLog := rfl

lemma createLights_fst (d : WebGLDriver) :
    (createLights d).1 =
      match d.scene with
      | some s =>
        { d with
          scene := some { s with children := s.children ++
            [ambLightAt d.nextObjId, dirLightAt (d.nextObjId + 1) d.config.shadows.truthy] }
          nextObjId := d.nextObjId + 2 }
      | none => d := by
  unfold createLights ambLightAt dirLightAt
  cases d.scene <;> rfl

lemma createLights_snd (d : WebGLDriver) :
    (createLights d).2 =
      match d.scene with
      | some _ => [.lightsCreated] ++ d.debugLog
      | none => [] := by
  unfold createLights
  cases d.scene <;> rfl

lemma controlsStep_fst (env : Env) (d : WebGLDriver) :
    (controlsStep env d).1 =
      { d with controls :=
          if d.config.controls.truthy && env.orbitControlsDefined then some ()
          else d.controls } := by
  unfold controlsStep createControls
  by_cases h1 : d.config.controls.truthy <;> by_cases h2 : env.orbitControlsDefined <;>
    simp [h1, h2, apply_ite]

lemma controlsStep_snd (env : Env) (d : WebGLDriver) :
    (controlsStep env d).2 =
      if d.config.controls.truthy then
        (if env.orbitControlsDefined then [.controlsCreated] ++ d.debugLog
         else if d.config.debug.truthy then
           [.consoleWarn "OrbitControls not available. Make sure to include the OrbitControls script."]
         else [])
      else [] := by
  unfold controlsStep createControls
  by_cases h1 : d.config.controls.truthy <;> by_cases h2 : env.orbitControlsDefined <;>
    by_cases h3 : d.config.debug.truthy <;> simp [h1, h2, h3]

lemma statsStep_fst (env : Env) (d : WebGLDriver) :
    (statsStep env d).1 =
      { d with stats :=
          if d.config.stats.truthy && env.statsDefined then some ()
          else d.stats } := by
  unfold statsStep createStats
  by_cases h1 : d.config.stats.truthy <;> by_cases h2 : env.statsDefined <;>
    simp [h1, h2, apply_ite]

lemma statsStep_snd (env : Env) (d : WebGLDriver) :
    (statsStep env d).2 =
      if d.config.stats.truthy then
        (if env.statsDefined then [.statsCreated] ++ d.debugLog
         else if d.config.debug.truthy then
           [.consoleWarn "Stats.js not available. Make sure to include the Stats.js library."]
         else [])
      else [] := by
  unfold statsStep createStats
  by_cases h1 : d.config.stats.truthy <;> by_cases h2 : env.statsDefined <;>
    by_cases h3 : d.config.debug.truthy <;> simp [h1, h2, h3]

lemma setupEventListeners_fst (d : WebGLDriver) :
    (setupEventListeners d).1 = { d with resizeListenerAttached := true } := rfl

lemma setupEventListeners_snd (d : WebGLDriver) :
    (setupEventListeners d).2 = [.listenersSetup] := rfl

lemma runSetup_fst (d : WebGLDriver) : (runSetup d).1 = d := by
  unfold runSetup
  split_ifs <;> rfl

lemma runSetup_snd (d : WebGLDriver) :
    (runSetup d).2 =
      if d.hasSetupCallback then [.setupCallbackCalled]
      else [.setupMethodCalled] ++ d.debugLog := by
  unfold runSetup
  split_ifs <;> rfl

lemma animate_fst (env : Env) (d : WebGLDriver) (h : d.isAnimating = true) :
    (animate env d).1 =
      { d with animationId := some d.nextRafId, nextRafId := d.nextRafId + 1
               clock := ((d.clock.getDelta env.now).2.getElapsedTime env.now).2 } := by
  unfold animate
  simp [h]

lemma animate_fst_idle (env : Env) (d : WebGLDriver) (h : d.isAnimating = false) :
    animate env d = (d, []) := by
  unfold animate
  simp [h]

lemma animate_snd (env : Env) (d : WebGLDriver) (h : d.isAnimating = true) :
    (animate env d).2 =
      [.frameScheduled d.nextRafId]
        ++ (if d.stats.isSome then [.statsBegin] else [])
        ++ (if d.controls.isSome then [.controlsUpdate] else [])
        ++ [if d.hasUpdateCallback then .updateCallbackCalled (animDelta env d) (animElapsed env d)
            else .updateMethodCalled (animDelta env d) (animElapsed env d)]
        ++ [.render]
        ++ (if d.stats.isSome then [.statsEnd] else []) := by
  unfold animate animDelta animElapsed
  simp [h]
  split <;> simp

lemma autoStartStep_fst (env : Env) (d : WebGLDriver) (h : d.isAnimating = false) :
    (autoStartStep env d).1 =
      { d with
        isAnimating := d.config.autoStart.truthy
        animationId := if d.config.autoStart.truthy then some d.nextRafId else d.animationId
        nextRafId := if d.config.autoStart.truthy then d.nextRafId + 1 else d.nextRafId
        clock := if d.config.autoStart.truthy then
            ((d.clock.getDelta env.now).2.getElapsedTime env.now).2
          else d.clock } := by
  unfold autoStartStep startAnimation animate
  by_cases h1 : d.config.autoStart.truthy <;> simp [h, h1]
  rw [← h]

end WebGLDriver

namespace WebGLDriver

lemma autoStartStep_snd (env : Env) (d : WebGLDriver) (h : d.isAnimating = false) :
    (autoStartStep env d).2 =
      if d.config.autoStart.truthy then
        [.frameScheduled d.nextRafId]
          ++ (if d.stats.isSome then [.statsBegin] else [])
          ++ (if d.controls.isSome then [.controlsUpdate] else [])
          ++ [if d.hasUpdateCallback then .updateCallbackCalled (animDelta env d) (animElapsed env d)
              else .updateMethodCalled (animDelta env d) (animElapsed env d)]
          ++ [.render]
          ++ (if d.stats.isSome then [.statsEnd] else [])
      else [] := by
  unfold autoStartStep startAnimation
  by_cases h1 : d.config.autoStart.truthy <;> simp [h, h1, animate_snd, animDelta, animElapsed]

end WebGLDriver

open WebGLDriver in
/-- Running the constructor yields exactly the closed-form state. -/
lemma new_fst (o : Options) (env : Env) :
    (WebGLDriver.new o env).1 = constructedState o env := by
  unfold WebGLDriver.new init
  simp only [createScene_fst, createCamera_fst, createRenderer_fst, createLights_fst,
    controlsStep_fst, statsStep_fst, setupEventListeners_fst, runSetup_fst, autoStartStep_fst]
  unfold constructedState
  simp [Clock.getDelta, Clock.getElapsedTime]

open WebGLDriver in
/-- Running the constructor emits exactly the closed-form trace. -/
lemma new_snd (o : Options) (env : Env) :
    (WebGLDriver.new o env).2 = constructedTrace o env := by
  unfold WebGLDriver.new init
  simp only [createScene_fst, createCamera_fst, createRenderer_fst, createLights_fst,
    controlsStep_fst, statsStep_fst, setupEventListeners_fst, runSetup_fst,
    createScene_snd, createCamera_snd, createRenderer_snd, createLights_snd,
    controlsStep_snd, statsStep_snd, setupEventListeners_snd, runSetup_snd, autoStartStep_snd]
  unfold constructedTrace debugLog
  simp [animDelta, animElapsed, Clock.getDelta, Clock.getElapsedTime]

/-! ## The claims -/

/-- C9: for every option key the caller supplies explicitly, the final
config value equals the raw supplied value, because the trailing
spread of `options` overrides the normalized defaults computed before
it. -/
theorem c9_options_spread_overrides_normalized_defaults (o : Options) (env : Env) :
    (∀ v, o.container = some v → (mkConfig o env).container = v) ∧
    (∀ v, o.width = some v → (mkConfig o env).width = v) ∧
    (∀ v, o.height = some v → (mkConfig o env).height = v) ∧
    (∀ v, o.backgroundColor = some v → (mkConfig o env).backgroundColor = v) ∧
    (∀ v, o.antialias = some v → (mkConfig o env).antialias = v) ∧
    (∀ v, o.alpha = some v → (mkConfig o env).alpha = v) ∧
    (∀ v, o.shadows = some v → (mkConfig o env).shadows = v) ∧
    (∀ v, o.controls = some v → (mkConfig o env).controls = v) ∧
    (∀ v, o.stats = some v → (mkConfig o env).stats = v) ∧
    (∀ v, o.debug = some v → (mkConfig o env).debug = v) ∧
    (∀ v, o.autoStart = some v → (mkConfig o env).autoStart = v) := by
  unfold mkConfig spreadKey
  refine ⟨?_, ?_, ?_, ?_, ?_, ?_, ?_, ?_, ?_, ?_, ?_⟩ <;> intro v h <;> simp [h]

/-- Witness for C9: `width: 0` survives the `|| window.innerWidth`
default and `antialias: undefined` survives the `!== false`
normalization. -/
theorem c9_options_spread_overrides_normalized_defaults_witness :
    (mkConfig { width := some (.num 0), antialias := some .undefined } envA).width = .num 0 ∧
    (mkConfig { width := some (.num 0), antialias := some .undefined } envA).antialias = .undefined :=
  ⟨(c9_options_spread_overrides_normalized_defaults
      { width := some (.num 0), antialias := some .undefined } envA).2.1 (.num 0) rfl,
   (c9_options_spread_overrides_normalized_defaults
      { width := some (.num 0), antialias := some .undefined } envA).2.2.2.2.1 .undefined rfl⟩

/-- C10: `stopAnimation` while a frame is pending clears
`isAnimating` and `animationId`; afterwards `animate` returns
immediately, with no update, render or scheduling, until
`startAnimation` runs again; and `stopAnimation` with a `null`
`animationId` changes nothing. -/
theorem c10_stop_animation_clears_state (d : WebGLDriver) (id : Nat)
    (hid : d.animationId = some id) (h0 : id ≠ 0) :
    (WebGLDriver.stopAnimation d).1.isAnimating = false ∧
    (WebGLDriver.stopAnimation d).1.animationId = none ∧
    (∀ env, WebGLDriver.animate env (WebGLDriver.stopAnimation d).1 =
      ((WebGLDriver.stopAnimation d).1, [])) ∧
    (∀ d2 : WebGLDriver, d2.animationId = none →
      WebGLDriver.stopAnimation d2 = (d2, [])) := by
  refine ⟨?_, ?_, ?_, ?_⟩
  · simp [WebGLDriver.stopAnimation, hid, h0]
  · simp [WebGLDriver.stopAnimation, hid, h0]
  · intro env
    refine WebGLDriver.animate_fst_idle env _ ?_
    simp [WebGLDriver.stopAnimation, hid, h0]
  · intro d2 h2
    unfold WebGLDriver.stopAnimation
    simp [h2]

/-- Witness for C10, at the freshly constructed driver `dA` (one
pending frame, handle 1) and the idle driver `dIdle`. -/
theorem c10_stop_animation_clears_state_witness :
    (WebGLDriver.stopAnimation dA).1.isAnimating = false ∧
    (WebGLDriver.stopAnimation dA).1.animationId = none ∧
    WebGLDriver.animate envB (WebGLDriver.stopAnimation dA).1 =
      ((WebGLDriver.stopAnimation dA).1, []) ∧
    WebGLDriver.stopAnimation dIdle = (dIdle, []) :=
  have h := c10_stop_animation_clears_state dA 1 rfl (by decide)
  ⟨h.1, h.2.1, h.2.2.1 envB, h.2.2.2 dIdle rfl⟩

/-- C4: at most one `requestAnimationFrame` callback is ever pending:
`startAnimation` is a no-op when `isAnimating` is already true, each
`animate` invocation schedules at most one successor frame, and a
repeated `startAnimation` never starts a second concurrent loop. -/
theorem c4_single_animation_loop (env : Env) (d : WebGLDriver) :
    (d.isAnimating = true → WebGLDriver.startAnimation env d = (d, [])) ∧
    ((WebGLDriver.animate env d).2.countP Event.isFrameScheduled ≤ 1) ∧
    (WebGLDriver.startAnimation env (WebGLDriver.startAnimation env d).1 =
      ((WebGLDriver.startAnimation env d).1, [])) := by
  have noop : ∀ x : WebGLDriver, x.isAnimating = true →
      WebGLDriver.startAnimation env x = (x, []) := by
    intro x h
    unfold WebGLDriver.startAnimation
    simp [h]
  have hA : ((WebGLDriver.startAnimation env d).1).isAnimating = true := by
    unfold WebGLDriver.startAnimation
    by_cases h : d.isAnimating
    · simp [h]
    · simp [h, WebGLDriver.animate_fst env { d with isAnimating := true } rfl]
  refine ⟨noop d, ?_, noop _ hA⟩
  by_cases h : d.isAnimating
  · rw [WebGLDriver.animate_snd env d h]
    simp [List.countP_append, List.countP_cons, Event.isFrameScheduled]
    split_ifs <;> simp [List.countP_cons, Event.isFrameScheduled]
  · rw [WebGLDriver.animate_fst_idle env d (by simpa using h)]
    simp

/-- Witness for C4 at the animating driver `dA`. -/
theorem c4_single_animation_loop_witness :
    WebGLDriver.startAnimation envA dA = (dA, []) ∧
    (WebGLDriver.animate envA dA).2.countP Event.isFrameScheduled ≤ 1 ∧
    WebGLDriver.startAnimation envA (WebGLDriver.startAnimation envA dA).1 =
      ((WebGLDriver.startAnimation envA dA).1, []) :=
  have h := c4_single_animation_loop envA dA
  ⟨h.1 rfl, h.2.1, h.2.2⟩

/-- C6: the only error reporting is optional `console.warn` logging:
`createLight` on an unknown type warns, returns `null` and leaves the
driver (scene and objects registry included) unchanged; when the
`OrbitControls` / `Stats` globals are undefined, `createControls` /
`createStats` skip creation and warn only in debug mode. -/
theorem c6_warn_only_error_reporting (ty : String) (opts : LightOptions)
    (d : WebGLDriver) (env : Env) :
    (jsToLower ty ∉ ["ambient", "directional", "point", "spot", "hemisphere"] →
      WebGLDriver.createLight ty opts d =
        (d, none, [.consoleWarn ("Unknown light type: " ++ ty)])) ∧
    (env.orbitControlsDefined = false →
      WebGLDriver.createControls env d =
        (d, if d.config.debug.truthy then
              [.consoleWarn "OrbitControls not available. Make sure to include the OrbitControls script."]
            else [])) ∧
    (env.statsDefined = false →
      WebGLDriver.createStats env d =
        (d, if d.config.debug.truthy then
              [.consoleWarn "Stats.js not available. Make sure to include the Stats.js library."]
            else [])) := by
  refine ⟨?_, ?_, ?_⟩
  · intro h
    simp at h
    unfold WebGLDriver.createLight WebGLDriver.lightSpecFor
    simp [h.1, h.2.1, h.2.2.1, h.2.2.2.1, h.2.2.2.2]
  · intro h
    unfold WebGLDriver.createControls
    simp [h]
    split_ifs <;> simp
  · intro h
    unfold WebGLDriver.createStats
    simp [h]
    split_ifs <;> simp

/-- Witness for C6: an unknown light type `"banana"` on the default
driver, and missing globals in `envA` with debug off. -/
theorem c6_warn_only_error_reporting_witness :
    WebGLDriver.createLight "banana" {} dA =
      (dA, none, [.consoleWarn "Unknown light type: banana"]) ∧
    WebGLDriver.createControls envA dA = (dA, []) ∧
    WebGLDriver.createStats envA dA = (dA, []) := by
  have h := c6_warn_only_error_reporting "banana" {} dA envA
  have hdbg : dA.config.debug.truthy = false := rfl
  refine ⟨h.1 (by decide), ?_, ?_⟩
  · rw [h.2.1 rfl, hdbg]
    simp
  · rw [h.2.2 rfl, hdbg]
    simp

/-- C1: while `isAnimating`, each `animate` iteration calls the user
update callback (or the overridable `update` method when no callback
was supplied) exactly once with `deltaTime` and `elapsedTime`, and
renders exactly once, the render following the update call. -/
theorem c1_animate_one_update_one_render (env : Env) (d : WebGLDriver)
    (h : d.isAnimating = true) :
    (WebGLDriver.animate env d).2.countP Event.isUpdateCall = 1 ∧
    (WebGLDriver.animate env d).2.countP Event.isRender = 1 ∧
    (WebGLDriver.animate env d).2.filter (fun e => e.isUpdateCall || e.isRender) =
      [if d.hasUpdateCallback then
         Event.updateCallbackCalled (animDelta env d) (animElapsed env d)
       else Event.updateMethodCalled (animDelta env d) (animElapsed env d),
       Event.render] := by
  rw [WebGLDriver.animate_snd env d h]
  refine ⟨?_, ?_, ?_⟩ <;>
    simp [List.countP_append, List.countP_cons, List.filter_append,
      Event.isUpdateCall, Event.isRender] <;>
    split_ifs <;>
    simp_all [List.countP_cons, List.filter, Event.isUpdateCall, Event.isRender]

/-- Witness for C1 at the animating driver `dC` (user callbacks,
stats and controls present) on a later frame. -/
theorem c1_animate_one_update_one_render_witness :
    (WebGLDriver.animate envB dC).2.countP Event.isUpdateCall = 1 ∧
    (WebGLDriver.animate envB dC).2.countP Event.isRender = 1 ∧
    (WebGLDriver.animate envB dC).2.filter (fun e => e.isUpdateCall || e.isRender) =
      [if dC.hasUpdateCallback then
         Event.updateCallbackCalled (animDelta envB dC) (animElapsed envB dC)
       else Event.updateMethodCalled (animDelta envB dC) (animElapsed envB dC),
       Event.render] :=
  c1_animate_one_update_one_render envB dC rfl

/-- C2: after the constructor returns, `scene`, `camera` and
`renderer` are non-null; the scene background is set from
`backgroundColor` whenever that is not `null`; the camera is a
`PerspectiveCamera` with fov 75, near 0.1, far 1000 at `(0, 0, 5)`;
the renderer canvas is appended to the configured container; and the
scene holds exactly one `AmbientLight` and one `DirectionalLight`
added during initialization. -/
theorem c2_constructor_postcondition (o : Options) (env : Env) :
    ∃ s c r,
      (WebGLDriver.new o env).1.scene = some s ∧
      (WebGLDriver.new o env).1.camera = some c ∧
      (WebGLDriver.new o env).1.renderer = some r ∧
      s.background = (if (mkConfig o env).backgroundColor ≠ .null
        then some ((mkConfig o env).backgroundColor) else none) ∧
      c.fov = 75 ∧ c.near = 1/10 ∧ c.far = 1000 ∧ c.position = ⟨0, 0, 5⟩ ∧
      r.canvasAppendedTo = some ((mkConfig o env).container) ∧
      s.children.countP Object3D.isAmbientLight = 1 ∧
      s.children.countP Object3D.isDirectionalLight = 1 := by
  rw [new_fst o env]
  unfold constructedState
  refine ⟨_, _, _, rfl, rfl, rfl, rfl, rfl, rfl, rfl, rfl, rfl, ?_, ?_⟩ <;>
    (unfold ambLightAt dirLightAt; split_ifs <;> rfl)

/-- C5 (amended): `onWindowResize` refreshes `config.width/height`
from the window, recomputes the camera aspect, updates the projection
matrix, resizes the renderer, and also re-applies the renderer pixel
ratio as `min(window.devicePixelRatio, 2)`; nothing else in the
driver state changes. -/
theorem c5_resize_updates_dims_aspect_and_pixel_ratio (env : Env) (d : WebGLDriver)
    (c : Camera) (r : Renderer) (hc : d.camera = some c) (hr : d.renderer = some r) :
    WebGLDriver.onWindowResize env d =
      ({ d with
          config := { d.config with
            width := .num env.innerWidth, height := .num env.innerHeight }
          camera := some { c with aspect := env.innerWidth / env.innerHeight }
          renderer := some { r with
            width := env.innerWidth, height := env.innerHeight
            pixelRatio := min env.devicePixelRatio 2 } },
       [Event.projectionMatrixUpdated] ++
         (if d.config.debug.truthy then [Event.consoleLog] else [])) := by
  unfold WebGLDriver.onWindowResize
  simp [hc, hr]

/-- Counterexample to C5 as stated: a resize seen on a display with
device pixel ratio 3 also changes the renderer's pixel ratio (from 1
to 2), so the handler does modify driver state beyond the listed
width/height/aspect/projection/renderer-size updates. -/
theorem c5_resize_counterexample :
    (WebGLDriver.onWindowResize envB dA).1.renderer.map Renderer.pixelRatio = some 2 ∧
    dA.renderer.map Renderer.pixelRatio = some 1 ∧
    (WebGLDriver.onWindowResize envB dA).1.renderer.map Renderer.pixelRatio ≠
      dA.renderer.map Renderer.pixelRatio := by
  refine ⟨by decide, by decide, by decide⟩

/-- Witness for the amended C5 at the idle driver and the moved
window environment `envB`. -/
theorem c5_resize_updates_dims_aspect_and_pixel_ratio_witness :
    (WebGLDriver.onWindowResize envB dIdle).1.config.width = .num 1024 ∧
    (WebGLDriver.onWindowResize envB dIdle).1.config.height = .num 768 ∧
    (WebGLDriver.onWindowResize envB dIdle).1.renderer.map Renderer.pixelRatio = some 2 ∧
    (WebGLDriver.onWindowResize envB dIdle).2 = [Event.projectionMatrixUpdated] := by
  have h := c5_resize_updates_dims_aspect_and_pixel_ratio envB dIdle
    { fov := 75, aspect := (800 : Rat)/600, near := 1/10, far := 1000, position := ⟨0, 0, 5⟩ }
    { antialias := true, alpha := false, width := 800, height := 600, pixelRatio := 1
      shadowMapEnabled := true, shadowMapType := .pcfSoft
      canvasAppendedTo := some documentBody }
    rfl rfl
  rw [h]
  refine ⟨rfl, rfl, by decide, ?_⟩
  have hdbg : dIdle.config.debug.truthy = false := rfl
  simp [hdbg]

set_option maxHeartbeats 2000000 in
/-- C3: every construction calls the user setup callback (when given)
or else the overridable `setup` method, exactly once, and only after
the scene, camera, renderer, lights, optional controls/stats, and
event listeners have been created. -/
theorem c3_setup_called_once_after_creation (o : Options) (env : Env) :
    (WebGLDriver.new o env).2.countP Event.isSetupCall = 1 ∧
    (WebGLDriver.new o env).2.filter Event.isSetupCall =
      [if o.setup then Event.setupCallbackCalled else Event.setupMethodCalled] ∧
    Event.sceneCreated ∈ (WebGLDriver.new o env).2.takeWhile (fun e => !e.isSetupCall) ∧
    Event.cameraCreated ∈ (WebGLDriver.new o env).2.takeWhile (fun e => !e.isSetupCall) ∧
    Event.rendererCreated ∈ (WebGLDriver.new o env).2.takeWhile (fun e => !e.isSetupCall) ∧
    Event.lightsCreated ∈ (WebGLDriver.new o env).2.takeWhile (fun e => !e.isSetupCall) ∧
    Event.listenersSetup ∈ (WebGLDriver.new o env).2.takeWhile (fun e => !e.isSetupCall) ∧
    (if ((WebGLDriver.new o env).1).controls.isSome then
      Event.controlsCreated ∈ (WebGLDriver.new o env).2.takeWhile (fun e => !e.isSetupCall)
     else True) ∧
    (if ((WebGLDriver.new o env).1).stats.isSome then
      Event.statsCreated ∈ (WebGLDriver.new o env).2.takeWhile (fun e => !e.isSetupCall)
     else True) := by
  rw [new_snd o env, new_fst o env]
  simp only [constructedTrace, constructedState]
  split_ifs <;> first | decide | simp_all

set_option maxHeartbeats 4000000 in
/-- C7 (amended): `createMesh` applies each position/rotation
component with missing-or-zero components defaulting to 0; the scale
option is applied only when truthy, so a numeric scale of 0 is
ignored (the scale stays `(1,1,1)`) and a zero or missing scale
component is replaced by 1; the mesh is added to the scene; and when
`options.name` is given as a nonempty string the mesh is named and
registered under it (an empty name registers nothing). -/
theorem c7_create_mesh_characterization (g m : Nat) (opts : MeshOptions)
    (d : WebGLDriver) (s : Scene) (hs : d.scene = some s) :
    (opts.position = none → (WebGLDriver.createMesh g m opts d).2.position = ⟨0, 0, 0⟩) ∧
    (∀ v, opts.position = some v → (WebGLDriver.createMesh g m opts d).2.position =
      ⟨jsOrNum v.x 0, jsOrNum v.y 0, jsOrNum v.z 0⟩) ∧
    (opts.rotation = none → (WebGLDriver.createMesh g m opts d).2.rotation = ⟨0, 0, 0⟩) ∧
    (∀ v, opts.rotation = some v → (WebGLDriver.createMesh g m opts d).2.rotation =
      ⟨jsOrNum v.x 0, jsOrNum v.y 0, jsOrNum v.z 0⟩) ∧
    (opts.scale = none → (WebGLDriver.createMesh g m opts d).2.scale = ⟨1, 1, 1⟩) ∧
    (∀ q, opts.scale = some (.num q) → (WebGLDriver.createMesh g m opts d).2.scale =
      (if q = 0 then ⟨1, 1, 1⟩ else ⟨q, q, q⟩)) ∧
    (∀ v, opts.scale = some (.vec v) → (WebGLDriver.createMesh g m opts d).2.scale =
      ⟨jsOrNum v.x 1, jsOrNum v.y 1, jsOrNum v.z 1⟩) ∧
    ((WebGLDriver.createMesh g m opts d).1.scene =
      some { s with children := s.children ++ [(WebGLDriver.createMesh g m opts d).2] }) ∧
    (∀ n, opts.name = some n → n ≠ "" →
      (WebGLDriver.createMesh g m opts d).2.name = n ∧
      (WebGLDriver.createMesh g m opts d).1.objects =
        (n, (WebGLDriver.createMesh g m opts d).2) :: d.objects) ∧
    ((opts.name = none ∨ opts.name = some "") →
      (WebGLDriver.createMesh g m opts d).2.name = "" ∧
      (WebGLDriver.createMesh g m opts d).1.objects = d.objects) := by
  obtain ⟨pos, rot, scl, cs, rs, nm⟩ := opts
  unfold WebGLDriver.createMesh WebGLDriver.registerName WebGLDriver.addToScene
  rcases pos with _ | v1 <;> rcases rot with _ | v2 <;>
    rcases scl with _ | (q | v3) <;> rcases cs with _ | b1 <;> rcases rs with _ | b2 <;>
    rcases nm with _ | n <;>
    simp_all [ScaleOpt.truthy, hs] <;> split_ifs <;> simp_all

/-- Counterexample to C7 as stated: `scale: 0` is falsy, so the
uniform numeric scale is not applied (the mesh keeps scale
`(1,1,1)`, not `(0,0,0)`), and the given name `""` is falsy, so the
mesh is not registered in the objects map. -/
theorem c7_create_mesh_counterexample :
    (WebGLDriver.createMesh 7 8 { scale := some (.num 0), name := some "" } dA).2.scale
      = ⟨1, 1, 1⟩ ∧
    (WebGLDriver.createMesh 7 8 { scale := some (.num 0), name := some "" } dA).2.scale
      ≠ ⟨0, 0, 0⟩ ∧
    (WebGLDriver.createMesh 7 8 { scale := some (.num 0), name := some "" } dA).1.objects
      = [] := by
  refine ⟨by decide, by decide, by decide⟩

/-- Witness for the amended C7: a mesh with a partially supplied
position, a component scale with a zero component, and the name
`"box"`. -/
theorem c7_create_mesh_characterization_witness :
    (WebGLDriver.createMesh 7 8
      { position := some ⟨some 1, none, some 0⟩
        scale := some (.vec ⟨some 0, some 2, none⟩), name := some "box" } dA).2.position
      = ⟨1, 0, 0⟩ ∧
    (WebGLDriver.createMesh 7 8
      { position := some ⟨some 1, none, some 0⟩
        scale := some (.vec ⟨some 0, some 2, none⟩), name := some "box" } dA).2.scale
      = ⟨1, 2, 1⟩ ∧
    (WebGLDriver.createMesh 7 8
      { position := some ⟨some 1, none, some 0⟩
        scale := some (.vec ⟨some 0, some 2, none⟩), name := some "box" } dA).2.name
      = "box" ∧
    (WebGLDriver.createMesh 7 8
      { position := some ⟨some 1, none, some 0⟩
        scale := some (.vec ⟨some 0, some 2, none⟩), name := some "box" } dA).1.objects
      = [("box", (WebGLDriver.createMesh 7 8
          { position := some ⟨some 1, none, some 0⟩
            scale := some (.vec ⟨some 0, some 2, none⟩), name := some "box" } dA).2)] := by
  have h := c7_create_mesh_characterization 7 8
    { position := some ⟨some 1, none, some 0⟩
      scale := some (.vec ⟨some 0, some 2, none⟩), name := some "box" } dA
    { id := 1, background := some (.num 0)
      children :=
        [{ id := 2, kind := .light (.ambient 0x404040 (2/5)) },
         { id := 3, kind := .light (.directional 0xffffff (4/5)), position := ⟨10, 10, 5⟩
           castShadow := true, shadowMapW := 2048, shadowMapH := 2048
           shadowCamNear := 1/2, shadowCamFar := 50 }] } rfl
  refine ⟨?_, ?_, ?_, ?_⟩
  · rw [h.2.1 ⟨some 1, none, some 0⟩ rfl]
    decide
  · rw [h.2.2.2.2.2.2.1 ⟨some 0, some 2, none⟩ rfl]
    decide
  · exact (h.2.2.2.2.2.2.2.2.1 "box" rfl (by decide)).1
  · rw [(h.2.2.2.2.2.2.2.2.1 "box" rfl (by decide)).2]
    have he : dA.objects = [] := rfl
    rw [he]

/-- C8 (amended): for every nonempty name `n`, immediately after
`createMesh` or `createLight` with `options.name = n`, `getObject n`
returns that same object; and for every name that is not in the
objects registry and matches no object name in the scene graph
(the scene root included), `getObject` returns `null`. -/
theorem c8_get_object_after_registration (d : WebGLDriver) (n : String) (hn : n ≠ "") :
    (∀ g m opts, opts.name = some n →
      WebGLDriver.getObject n (WebGLDriver.createMesh g m opts d).1 =
        some (WebGLDriver.createMesh g m opts d).2) ∧
    (∀ ty opts l, opts.name = some n →
      (WebGLDriver.createLight ty opts d).2.1 = some l →
      WebGLDriver.getObject n (WebGLDriver.createLight ty opts d).1 = some l) ∧
    (∀ d2 : WebGLDriver, ∀ nm : String, d2.objects.lookup nm = none →
      (∀ s, d2.scene = some s → s.getObjectByName nm = none) →
      WebGLDriver.getObject nm d2 = none) := by
  refine ⟨?_, ?_, ?_⟩
  · intro g m opts hname
    unfold WebGLDriver.createMesh WebGLDriver.registerName WebGLDriver.addToScene
      WebGLDriver.getObject
    rcases hsc : d.scene with _ | s <;> simp [hname, hn, hsc]
  · intro ty opts l hname hl
    unfold WebGLDriver.createLight at hl ⊢
    rcases hspec : WebGLDriver.lightSpecFor ty opts with _ | spec
    · simp [hspec] at hl
    · unfold WebGLDriver.registerName WebGLDriver.addToScene at hl ⊢
      unfold WebGLDriver.getObject
      rcases hsc : d.scene with _ | s <;> simp [hspec, hname, hn, hsc] at hl ⊢ <;>
        subst hl <;> rfl
  · intro d2 nm h1 h2
    unfold WebGLDriver.getObject
    rw [h1]
    rcases hsc : d2.scene with _ | s
    · rfl
    · simpa using h2 s hsc

/-- Counterexample to C8 as stated: after `createMesh` with the name
`""`, the falsy name registers nothing, and `getObject ""` finds the
scene root (whose default name is `""`) rather than the mesh. -/
theorem c8_get_object_counterexample :
    (WebGLDriver.getObject "" (WebGLDriver.createMesh 7 8 { name := some "" } dA).1).map Object3D.kind
      = some .sceneRoot ∧
    (WebGLDriver.createMesh 7 8 { name := some "" } dA).2.kind = .mesh 7 8 ∧
    (WebGLDriver.getObject "" (WebGLDriver.createMesh 7 8 { name := some "" } dA).1).map Object3D.kind
      ≠ some ((WebGLDriver.createMesh 7 8 { name := some "" } dA).2.kind) := by
  refine ⟨by decide, by decide, by decide⟩

/-- Witness for the amended C8: a registered mesh and light are found
under their names, and a never-registered, never-matching name yields
`null`. -/
theorem c8_get_object_after_registration_witness :
    WebGLDriver.getObject "mesh1"
        (WebGLDriver.createMesh 7 8 { name := some "mesh1" } dA).1 =
      some (WebGLDriver.createMesh 7 8 { name := some "mesh1" } dA).2 ∧
    WebGLDriver.getObject "light1"
        (WebGLDriver.createLight "point" { name := some "light1" } dA).1 =
      some { id := 4, name := "light1", kind := .light (.point 0xffffff 1 0 1) } ∧
    WebGLDriver.getObject "ghost" dA = none := by
  have hM := c8_get_object_after_registration dA "mesh1" (by decide)
  have hL := c8_get_object_after_registration dA "light1" (by decide)
  refine ⟨hM.1 7 8 { name := some "mesh1" } rfl, ?_, ?_⟩
  · exact hL.2.1 "point" { name := some "light1" }
      { id := 4, name := "light1", kind := .light (.point 0xffffff 1 0 1) } rfl rfl
  · refine hM.2.2 dA "ghost" rfl ?_
    intro s hs
    have he : dA.scene = some
      { id := 1, background := some (.num 0)
        children :=
          [{ id := 2, kind := .light (.ambient 0x404040 (2/5)) },
           { id := 3, kind := .light (.directional 0xffffff (4/5)), position := ⟨10, 10, 5⟩
             castShadow := true, shadowMapW := 2048, shadowMapH := 2048
             shadowCamNear := 1/2, shadowCamFar := 50 }] } := rfl
    rw [he] at hs
    obtain rfl := Option.some.inj hs
    decide
